import Mathlib

/-!
Shallow embedding of the debug-session core of the langgraph-visualizer
extension: the session controller (`src/debugSession.ts`) and the
WebSocket transport (`src/debugServer.ts`).

Conventions of the embedding:
* JavaScript `number` timestamps (milliseconds from `Date.now()`) are `Nat`;
  computed millisecond deltas are `Int` (JS subtraction can go negative).
* Optional / possibly-`undefined` fields are `Option`.
* The untyped (`any`) payload values flowing through the protocol are
  abstracted by the opaque-but-concrete type `Val`; the controller only ever
  moves them around, never inspects them, exactly as in the source.  Where
  the source logs a whole payload object, the embedding logs the projected
  field it carries.
* `Map<string, NodeExecution>` is an insertion-ordered association list,
  `Set<string>` an insertion-ordered duplicate-free list, matching JS
  iteration semantics.
* Methods become pure functions from session state (plus the clock value
  `now` and the event payload) to a new session state; commands handed to
  the transport are returned alongside as a `List Cmd`.
-/

/-- Abstract protocol payload values (the source's `any` fields). -/
inductive Val where
  | vnull : Val
  | vstr : String → Val
  | vnum : Int → Val
deriving DecidableEq, Repr

/-- `type ExecutionState = 'stopped' | 'running' | 'paused' | 'stepping'`. -/
inductive ExecutionState where
  | stopped
  | running
  | paused
  | stepping
deriving DecidableEq, Repr

/-- `NodeExecution.status` values. -/
inductive NodeStatus where
  | pending
  | running
  | completed
  | error
deriving DecidableEq, Repr

/-- `interface NodeExecution` from `debugSession.ts`. -/
structure NodeExecution where
  nodeId : String
  nodeName : String
  status : NodeStatus
  input : Option Val
  output : Option Val
  stateBefore : Option Val
  stateAfter : Option Val
  startTime : Option Nat
  endTime : Option Nat
  duration : Option Int
  error : Option String
deriving DecidableEq, Repr

/-- `ExecutionLogEntry.type` values. -/
inductive LogType where
  | node_start
  | node_end
  | state_update
  | input
  | output
  | error
  | info
deriving DecidableEq, Repr

/-- `interface ExecutionLogEntry`.  `addLogEntry` never sets `nodeId`,
so the embedding keeps the field always `none`. -/
structure ExecutionLogEntry where
  timestamp : Nat
  type : LogType
  nodeId : Option String
  message : String
  data : Option Val
deriving DecidableEq, Repr

/-- `TimeCapsuleStep.type` values. -/
inductive StepType where
  | input
  | node
  | output
deriving DecidableEq, Repr

/-- `interface TimeCapsuleStep`. -/
structure TimeCapsuleStep where
  step : Nat
  node : String
  type : StepType
  input : Val
  output : Val
  state_before : Val
  state_after : Val
  duration : Option Int
  timestamp : String
  error : Option String
deriving DecidableEq, Repr

/-- `interface DebugSessionState`. -/
structure DebugSessionState where
  isActive : Bool
  executionState : ExecutionState
  currentNode : Option String
  nodeExecutions : List (String × NodeExecution)
  executionLog : List ExecutionLogEntry
  currentState : Option Val
  initialInput : Option Val
  finalOutput : Option Val
  breakpoints : List String
  startTime : Option Nat
  port : Nat
  pythonPath : String
  timeCapsule : List TimeCapsuleStep
  timeCapsuleIndex : Nat
  timeCapsuleActive : Bool
deriving DecidableEq, Repr

/-- `interface NodeExecutionData` from `debugServer.ts` (the `node_start` /
`node_end` payload).  Wire durations are elapsed-millisecond counts. -/
structure NodeExecutionData where
  nodeId : String
  nodeName : String
  input : Option Val
  output : Option Val
  stateBefore : Option Val
  stateAfter : Option Val
  duration : Option Nat
  error : Option String
deriving DecidableEq, Repr

/-- Commands the controller hands to the transport. -/
inductive Cmd where
  | pause
  | resume
  | step
  | stop
  | set_breakpoint (nodeId : String)
  | remove_breakpoint (nodeId : String)
deriving DecidableEq, Repr

/-- `Map.get` on the insertion-ordered association list. -/
def mapGet (m : List (String × NodeExecution)) (k : String) : Option NodeExecution :=
  match m with
  | [] => none
  | (k2, v) :: rest => if k2 = k then some v else mapGet rest k

/-- `Map.set`: overwrite in place if the key is present, else append. -/
def mapSet (m : List (String × NodeExecution)) (k : String) (v : NodeExecution) :
    List (String × NodeExecution) :=
  match m with
  | [] => [(k, v)]
  | (k2, v2) :: rest => if k2 = k then (k, v) :: rest else (k2, v2) :: mapSet rest k v

/-- `Set.add`: append if absent (JS sets keep insertion order). -/
def setAdd (s : List String) (x : String) : List String :=
  if x ∈ s then s else s ++ [x]

/-- `Set.delete`: remove the (unique) occurrence. -/
def setDel (s : List String) (x : String) : List String :=
  s.erase x

/-- JS `a || b` on an optional number: `undefined` and `0` are falsy. -/
def jsOrNat (a : Option Nat) (b : Nat) : Nat :=
  match a with
  | some v => if v = 0 then b else v
  | none => b

/-- JS `a || b` on an optional string: `undefined` and `""` are falsy. -/
def jsOrStr (a : Option String) (b : String) : String :=
  match a with
  | some v => if v = "" then b else v
  | none => b

/-- JS truthiness of an optional string field (`data.error ? ... : ...`). -/
def errTruthy (e : Option String) : Bool :=
  match e with
  | some v => v ≠ ""
  | none => false

/-- `createInitialState()`; the python path resolved from configuration is a
parameter. -/
def createInitialState (defaultPythonPath : String) : DebugSessionState :=
  { isActive := false
    executionState := .stopped
    currentNode := none
    nodeExecutions := []
    executionLog := []
    currentState := none
    initialInput := none
    finalOutput := none
    breakpoints := []
    startTime := none
    port := 0
    pythonPath := defaultPythonPath
    timeCapsule := []
    timeCapsuleIndex := 0
    timeCapsuleActive := false }

/-- `addLogEntry(type, message, data)` at clock value `now`: push onto
`executionLog`. -/
def addLogEntry (t : LogType) (msg : String) (d : Option Val) (now : Nat)
    (s : DebugSessionState) : DebugSessionState :=
  { s with executionLog :=
      s.executionLog ++ [{ timestamp := now, type := t, nodeId := none,
                           message := msg, data := d }] }

namespace DebugSession

/-- `setPythonPath(pythonPath)`. -/
def setPythonPath (p : String) (s : DebugSessionState) : DebugSessionState :=
  { s with pythonPath := p }

/-- `start(document)` on the success path: server started on `port`, runtime
files created, per-run collections reset, three info entries logged.
`timeCapsule`, `timeCapsuleIndex`, `timeCapsuleActive` are untouched. -/
def start (now : Nat) (port : Nat) (s : DebugSessionState) : DebugSessionState :=
  if s.isActive then s
  else
    let s1 := { s with port := port, isActive := true, startTime := some now,
                       executionState := .stopped, nodeExecutions := [],
                       executionLog := [] }
    let s2 := addLogEntry .info "Debug session started" none now s1
    let s3 := addLogEntry .info ("WebSocket server listening on port " ++ toString port)
                none now s2
    addLogEntry .info ("Python path: " ++ s2.pythonPath) none now s3

/-- `start(document)` when it throws after the server bound a port: only
`port` has been assigned at that point. -/
def startFail (port : Nat) (s : DebugSessionState) : DebugSessionState :=
  if s.isActive then s else { s with port := port }

/-- `stop()`.  `connected` is the transport's connected flag (the `stop`
command is only relayed when a peer is connected); `defaultPythonPath` is the
configuration value `createInitialState` re-reads. -/
def stop (now : Nat) (defaultPythonPath : String) (connected : Bool)
    (s : DebugSessionState) : DebugSessionState × List Cmd :=
  if ¬ s.isActive then (s, [])
  else
    let cmds := if connected then [Cmd.stop] else []
    let s1 := createInitialState defaultPythonPath
    let s2 := { s1 with timeCapsule := s.timeCapsule,
                        timeCapsuleIndex := s.timeCapsuleIndex,
                        timeCapsuleActive := s.timeCapsuleActive }
    (addLogEntry .info "Debug session stopped" none now s2, cmds)

/-- `pause()`: guarded on `executionState === 'running'`; relays the `pause`
command and immediately sets `executionState` to `'paused'`. -/
def pause (now : Nat) (s : DebugSessionState) : DebugSessionState × List Cmd :=
  if s.executionState = .running then
    (addLogEntry .info "Execution paused" none now
       { s with executionState := .paused }, [Cmd.pause])
  else (s, [])

/-- `resume()`: guarded on `'paused'`; relays `resume` and immediately sets
`executionState` to `'running'`. -/
def resume (now : Nat) (s : DebugSessionState) : DebugSessionState × List Cmd :=
  if s.executionState = .paused then
    (addLogEntry .info "Execution resumed" none now
       { s with executionState := .running }, [Cmd.resume])
  else (s, [])

/-- `step()`: guarded on `'paused'`; relays `step` and immediately sets
`executionState` to `'stepping'`. -/
def step (now : Nat) (s : DebugSessionState) : DebugSessionState × List Cmd :=
  if s.executionState = .paused then
    (addLogEntry .info "Stepping to next node" none now
       { s with executionState := .stepping }, [Cmd.step])
  else (s, [])

/-- `toggleBreakpoint(nodeId)`: returns the new membership, flips the local
set, and relays the matching command. -/
def toggleBreakpoint (nodeId : String) (now : Nat) (s : DebugSessionState) :
    Bool × DebugSessionState × List Cmd :=
  if nodeId ∈ s.breakpoints then
    (false,
     addLogEntry .info ("Breakpoint removed from " ++ nodeId) none now
       { s with breakpoints := setDel s.breakpoints nodeId },
     [Cmd.remove_breakpoint nodeId])
  else
    (true,
     addLogEntry .info ("Breakpoint set on " ++ nodeId) none now
       { s with breakpoints := setAdd s.breakpoints nodeId },
     [Cmd.set_breakpoint nodeId])

/-- `activateTimeCapsule()`: warning-only no-op on empty history, else sets
the active flag and index 0 (the projection is not recomputed here). -/
def activateTimeCapsule (now : Nat) (s : DebugSessionState) : DebugSessionState :=
  if s.timeCapsule.length = 0 then s
  else
    addLogEntry .info "Time Capsule activated" none now
      { s with timeCapsuleActive := true, timeCapsuleIndex := 0 }

/-- `deactivateTimeCapsule()`. -/
def deactivateTimeCapsule (now : Nat) (s : DebugSessionState) : DebugSessionState :=
  addLogEntry .info "Time Capsule deactivated" none now
    { s with timeCapsuleActive := false, currentNode := none }

/-- Sentinel normalization inside `updateTimeCapsuleState`. -/
def normalizeNode (n : String) : String :=
  if n = "__start__" then "START" else if n = "__end__" then "END" else n

/-- `updateTimeCapsuleState()`: recompute the current-node / current-state
projection from the step at the current index. -/
def updateTimeCapsuleState (now : Nat) (s : DebugSessionState) : DebugSessionState :=
  match s.timeCapsule.get? s.timeCapsuleIndex with
  | some st =>
      addLogEntry .info
        ("Time Capsule: Step " ++ toString (st.step + 1) ++ "/" ++
          toString s.timeCapsule.length ++ " - " ++ st.node) none now
        { s with currentNode := some (normalizeNode st.node),
                 currentState := some st.state_after }
  | none => s

/-- `timeCapsuleNext()`. -/
def timeCapsuleNext (now : Nat) (s : DebugSessionState) : DebugSessionState :=
  if ¬ s.timeCapsuleActive ∨ s.timeCapsule.length = 0 then s
  else if s.timeCapsuleIndex < s.timeCapsule.length - 1 then
    updateTimeCapsuleState now { s with timeCapsuleIndex := s.timeCapsuleIndex + 1 }
  else s

/-- `timeCapsulePrevious()`. -/
def timeCapsulePrevious (now : Nat) (s : DebugSessionState) : DebugSessionState :=
  if ¬ s.timeCapsuleActive ∨ s.timeCapsule.length = 0 then s
  else if 0 < s.timeCapsuleIndex then
    updateTimeCapsuleState now { s with timeCapsuleIndex := s.timeCapsuleIndex - 1 }
  else s

/-- `isAtFirstStep()`. -/
def isAtFirstStep (s : DebugSessionState) : Bool :=
  s.timeCapsuleIndex = 0

/-- `isAtLastStep()`: `timeCapsuleIndex >= timeCapsule.length - 1` over JS
numbers, i.e. `index + 1 >= length` over integers. -/
def isAtLastStep (s : DebugSessionState) : Bool :=
  s.timeCapsule.length ≤ s.timeCapsuleIndex + 1

/-- `handleNodeStart(data)` at clock value `now`. -/
def handleNodeStart (d : NodeExecutionData) (now : Nat) (s : DebugSessionState) :
    DebugSessionState :=
  let rec0 : NodeExecution :=
    { nodeId := d.nodeId, nodeName := d.nodeName, status := .running,
      input := d.input, output := none, stateBefore := d.stateBefore,
      stateAfter := none, startTime := some now, endTime := none,
      duration := none, error := none }
  addLogEntry .node_start ("Node \"" ++ d.nodeName ++ "\" started") d.input now
    { s with nodeExecutions := mapSet s.nodeExecutions d.nodeId rec0,
             currentNode := some d.nodeId }

/-- `handleNodeEnd(data)` at clock value `now`.  When the record is absent
nothing is logged and no record is touched; `currentNode` is cleared exactly
when it equals the event's node id. -/
def handleNodeEnd (d : NodeExecutionData) (now : Nat) (s : DebugSessionState) :
    DebugSessionState :=
  let s1 :=
    match mapGet s.nodeExecutions d.nodeId with
    | some r =>
        let dur : Int :=
          match d.duration with
          | some v =>
              if v = 0 then (now : Int) - (jsOrNat r.startTime now : Int)
              else (v : Int)
          | none => (now : Int) - (jsOrNat r.startTime now : Int)
        let r2 : NodeExecution :=
          { r with status := if errTruthy d.error then .error else .completed,
                   output := d.output, stateAfter := d.stateAfter,
                   endTime := some now, duration := some dur,
                   error := d.error }
        addLogEntry .node_end
          ("Node \"" ++ d.nodeName ++ "\" completed (" ++ toString dur ++ "ms)")
          d.output now
          { s with nodeExecutions := mapSet s.nodeExecutions d.nodeId r2,
                   currentState := d.stateAfter }
    | none => s
  if s1.currentNode = some d.nodeId then { s1 with currentNode := none } else s1

end DebugSession

/-- Inbound protocol events (remote → controller), with the payload fields
the session controller's `handleMessage` reads.  `stepEcho` and
`request_input` are envelope types the switch has no case for. -/
inductive InMsg where
  | connected
  | graph_start
  | graph_end (output : Option Val) (error : Option String)
      (timeCapsule : Option (List TimeCapsuleStep))
  | node_start (d : NodeExecutionData)
  | node_end (d : NodeExecutionData)
  | state_update (st : Option Val)
  | input (d : Option Val)
  | output (d : Option Val)
  | paused (node : Option String)
  | resumed
  | breakpoint_hit (node : Option String)
  | error (e : Option String)
  | stopped
  | stepEcho
  | request_input
deriving DecidableEq, Repr

namespace DebugSession

/-- String rendering of an optional node id inside a template literal
(JS renders `undefined`). -/
def tmplNode (n : Option String) : String :=
  match n with
  | some v => v
  | none => "undefined"

/-- `handleMessage(message)` at clock value `now`. -/
def handleMessage (m : InMsg) (now : Nat) (s : DebugSessionState) :
    DebugSessionState :=
  match m with
  | .connected => addLogEntry .info "Python runtime connected" none now s
  | .graph_start =>
      addLogEntry .info "Graph execution started" none now
        { s with executionState := .running, nodeExecutions := [] }
  | .graph_end out err tc =>
      let s1 := { s with executionState := .stopped, finalOutput := out }
      let s2 :=
        match tc with
        | some steps =>
            addLogEntry .info
              ("Time Capsule recorded " ++ toString steps.length ++ " steps")
              none now
              { s1 with timeCapsule := steps, timeCapsuleIndex := 0,
                        timeCapsuleActive := false }
        | none => s1
      if errTruthy err then
        addLogEntry .error ("Graph execution failed: " ++ jsOrStr err "") none now s2
      else
        addLogEntry .info "Graph execution completed" none now s2
  | .node_start d => handleNodeStart d now s
  | .node_end d => handleNodeEnd d now s
  | .state_update st =>
      addLogEntry .state_update "State updated" st now
        { s with currentState := st }
  | .input d =>
      addLogEntry .input "Input received" d now { s with initialInput := d }
  | .output d =>
      addLogEntry .output "Output produced" d now { s with finalOutput := d }
  | .paused node =>
      addLogEntry .info ("Execution paused at " ++ jsOrStr node "unknown") none now
        { s with executionState := .paused }
  | .resumed =>
      addLogEntry .info "Execution resumed" none now
        { s with executionState := .running }
  | .breakpoint_hit node =>
      addLogEntry .info ("Breakpoint hit at " ++ tmplNode node) none now
        { s with executionState := .paused }
  | .error e =>
      addLogEntry .error (jsOrStr e "Unknown error") (e.map Val.vstr) now s
  | .stopped =>
      addLogEntry .info "Execution stopped" none now
        { s with executionState := .stopped }
  | .stepEcho => s
  | .request_input => s

/-- `handleConnected()`. -/
def handleConnected (now : Nat) (s : DebugSessionState) : DebugSessionState :=
  addLogEntry .info "Python runtime connected" none now s

/-- `handleDisconnected()`. -/
def handleDisconnected (now : Nat) (s : DebugSessionState) : DebugSessionState :=
  if s.isActive then
    { addLogEntry .info "Python runtime disconnected" none now s with
        executionState := .stopped }
  else s

end DebugSession

/-- One controller operation or inbound event, with its environment inputs
(the clock value, configuration strings, transport flags, payloads). -/
inductive Op where
  | start (now : Nat) (port : Nat)
  | startFail (port : Nat)
  | stop (now : Nat) (defaultPythonPath : String) (connected : Bool)
  | pause (now : Nat)
  | resume (now : Nat)
  | step (now : Nat)
  | toggleBreakpoint (nodeId : String) (now : Nat)
  | setPythonPath (p : String)
  | activateTimeCapsule (now : Nat)
  | deactivateTimeCapsule (now : Nat)
  | timeCapsuleNext (now : Nat)
  | timeCapsulePrevious (now : Nat)
  | handleMessage (m : InMsg) (now : Nat)
  | handleConnected (now : Nat)
  | handleDisconnected (now : Nat)
deriving Repr

/-- Effect of one operation on the session state (transport commands and
returned booleans dropped). -/
def applyOp (o : Op) (s : DebugSessionState) : DebugSessionState :=
  match o with
  | .start now port => DebugSession.start now port s
  | .startFail port => DebugSession.startFail port s
  | .stop now d c => (DebugSession.stop now d c s).1
  | .pause now => (DebugSession.pause now s).1
  | .resume now => (DebugSession.resume now s).1
  | .step now => (DebugSession.step now s).1
  | .toggleBreakpoint nodeId now => (DebugSession.toggleBreakpoint nodeId now s).2.1
  | .setPythonPath p => DebugSession.setPythonPath p s
  | .activateTimeCapsule now => DebugSession.activateTimeCapsule now s
  | .deactivateTimeCapsule now => DebugSession.deactivateTimeCapsule now s
  | .timeCapsuleNext now => DebugSession.timeCapsuleNext now s
  | .timeCapsulePrevious now => DebugSession.timeCapsulePrevious now s
  | .handleMessage m now => DebugSession.handleMessage m now s
  | .handleConnected now => DebugSession.handleConnected now s
  | .handleDisconnected now => DebugSession.handleDisconnected now s

/-- Session states reachable from the constructor's initial state through any
sequence of controller operations and inbound events. -/
inductive Reachable : DebugSessionState → Prop where
  | init (p : String) : Reachable (createInitialState p)
  | step (o : Op) (s : DebugSessionState) : Reachable s → Reachable (applyOp o s)

/-- The Time Capsule invariant: the index stays inside the history whenever
the history is non-empty, and the capsule is never active while empty. -/
def capsuleInv (s : DebugSessionState) : Prop :=
  (s.timeCapsule ≠ [] → s.timeCapsuleIndex < s.timeCapsule.length) ∧
  (s.timeCapsule = [] → s.timeCapsuleActive = false)

instance (s : DebugSessionState) : Decidable (capsuleInv s) := by
  unfold capsuleInv; infer_instance

/-!
Reference-aware model of the session object, for the copy semantics of the
read accessors.  In JavaScript the session's four collections
(`nodeExecutions : Map`, `executionLog : Array`, `breakpoints : Set`,
`timeCapsule : Array`) are heap objects held by reference; the spread in
`getState(): { ...this.state }` copies the top-level fields, i.e. those
references, not the collections themselves.  `SessionObj` is the session
record with the collection fields replaced by heap references, and `Heap`
maps references to collection contents.
-/

/-- The session object with collections as heap references. -/
structure SessionObj where
  isActive : Bool
  executionState : ExecutionState
  currentNode : Option String
  nodeExecutionsRef : Nat
  executionLogRef : Nat
  currentState : Option Val
  initialInput : Option Val
  finalOutput : Option Val
  breakpointsRef : Nat
  startTime : Option Nat
  port : Nat
  pythonPath : String
  timeCapsuleRef : Nat
  timeCapsuleIndex : Nat
  timeCapsuleActive : Bool
deriving DecidableEq, Repr

/-- The heap holding the contents of the referenced collections. -/
structure Heap where
  maps : Nat → List (String × NodeExecution)
  logs : Nat → List ExecutionLogEntry
  sets : Nat → List String
  capsules : Nat → List TimeCapsuleStep

namespace DebugSession

/-- `getState(): return { ...this.state }` — a new object whose fields are
copied from the session one level deep, so the collection fields of the copy
are the same heap references. -/
def getState (s : SessionObj) : SessionObj :=
  { isActive := s.isActive
    executionState := s.executionState
    currentNode := s.currentNode
    nodeExecutionsRef := s.nodeExecutionsRef
    executionLogRef := s.executionLogRef
    currentState := s.currentState
    initialInput := s.initialInput
    finalOutput := s.finalOutput
    breakpointsRef := s.breakpointsRef
    startTime := s.startTime
    port := s.port
    pythonPath := s.pythonPath
    timeCapsuleRef := s.timeCapsuleRef
    timeCapsuleIndex := s.timeCapsuleIndex
    timeCapsuleActive := s.timeCapsuleActive }

/-- `getExecutionLog(): return [...this.state.executionLog]` — a fresh array
holding the current log contents (a pure value, not a reference). -/
def getExecutionLog (h : Heap) (s : SessionObj) : List ExecutionLogEntry :=
  h.logs s.executionLogRef

/-- `getNodeExecutions(): Array.from(map.values())` — a fresh array of the
current records. -/
def getNodeExecutions (h : Heap) (s : SessionObj) : List NodeExecution :=
  (h.maps s.nodeExecutionsRef).map Prod.snd

end DebugSession

/-- A caller performing `map.set(k, v)` through a `Map` reference it holds. -/
def heapMapSet (h : Heap) (r : Nat) (k : String) (v : NodeExecution) : Heap :=
  { h with maps := fun n => if n = r then mapSet (h.maps n) k v else h.maps n }

/-- A caller performing `set.add(x)` through a `Set` reference it holds. -/
def heapSetAdd (h : Heap) (r : Nat) (x : String) : Heap :=
  { h with sets := fun n => if n = r then setAdd (h.sets n) x else h.sets n }

/-- The controller's own view of its node-execution map. -/
def readNodeExecutions (h : Heap) (s : SessionObj) : List (String × NodeExecution) :=
  h.maps s.nodeExecutionsRef

/-- The controller's own view of its breakpoint set. -/
def readBreakpoints (h : Heap) (s : SessionObj) : List String :=
  h.sets s.breakpointsRef

/-!
Transport model (`src/debugServer.ts`).  Peer sockets are identified by
naturals; `readyState` tracks each socket's WebSocket ready state
(1 = OPEN, 3 = CLOSED).  The `connection` handler stores the new socket in
`client` unconditionally; the per-socket `close` handler sets
`client = null` unconditionally — it does not check that the closing socket
is still the tracked one — and invokes the disconnected callback
(`disconnectedCount` counts those invocations).
-/

/-- WebSocket `OPEN` ready state. -/
def wsOPEN : Nat := 1

/-- WebSocket `CLOSED` ready state. -/
def wsCLOSED : Nat := 3

/-- Transport state: tracked client reference, per-socket ready states, and
the number of `onDisconnected` callback invocations. -/
structure ServerState where
  client : Option Nat
  readyState : Nat → Nat
  disconnectedCount : Nat

namespace DebugServer

/-- The `wss.on('connection')` handler: the freshly accepted socket is open
and replaces the tracked client unconditionally. -/
def handleConnection (peer : Nat) (st : ServerState) : ServerState :=
  { st with client := some peer,
            readyState := fun n => if n = peer then wsOPEN else st.readyState n }

/-- The `ws.on('close')` handler of socket `peer` firing: the socket itself
is now closed, and the handler body sets `this.client = null` and invokes
the disconnected callback — with no check that `peer` is still the tracked
client. -/
def handleCloseEvt (peer : Nat) (st : ServerState) : ServerState :=
  { client := none
    readyState := fun n => if n = peer then wsCLOSED else st.readyState n
    disconnectedCount := st.disconnectedCount + 1 }

/-- `get connected()`: `this.client !== null && this.client.readyState === 1`. -/
def connected (st : ServerState) : Bool :=
  match st.client with
  | some c => st.readyState c = wsOPEN
  | none => false

/-- `send(command)`: returns `false` writing nothing when not connected,
else writes the frame and returns `true`. -/
def send (c : Cmd) (st : ServerState) : Bool × Option Cmd :=
  if connected st then (true, some c) else (false, none)

end DebugServer

/-!
Helper lemmas.
-/

@[simp]
theorem addLogEntry_timeCapsule (t : LogType) (m : String) (d : Option Val)
    (now : Nat) (s : DebugSessionState) :
    (addLogEntry t m d now s).timeCapsule = s.timeCapsule := rfl

@[simp]
theorem addLogEntry_timeCapsuleIndex (t : LogType) (m : String) (d : Option Val)
    (now : Nat) (s : DebugSessionState) :
    (addLogEntry t m d now s).timeCapsuleIndex = s.timeCapsuleIndex := rfl

@[simp]
theorem addLogEntry_timeCapsuleActive (t : LogType) (m : String) (d : Option Val)
    (now : Nat) (s : DebugSessionState) :
    (addLogEntry t m d now s).timeCapsuleActive = s.timeCapsuleActive := rfl

@[simp]
theorem addLogEntry_nodeExecutions (t : LogType) (m : String) (d : Option Val)
    (now : Nat) (s : DebugSessionState) :
    (addLogEntry t m d now s).nodeExecutions = s.nodeExecutions := rfl

@[simp]
theorem addLogEntry_currentNode (t : LogType) (m : String) (d : Option Val)
    (now : Nat) (s : DebugSessionState) :
    (addLogEntry t m d now s).currentNode = s.currentNode := rfl

@[simp]
theorem addLogEntry_currentState (t : LogType) (m : String) (d : Option Val)
    (now : Nat) (s : DebugSessionState) :
    (addLogEntry t m d now s).currentState = s.currentState := rfl

@[simp]
theorem addLogEntry_breakpoints (t : LogType) (m : String) (d : Option Val)
    (now : Nat) (s : DebugSessionState) :
    (addLogEntry t m d now s).breakpoints = s.breakpoints := rfl

@[simp]
theorem addLogEntry_executionState (t : LogType) (m : String) (d : Option Val)
    (now : Nat) (s : DebugSessionState) :
    (addLogEntry t m d now s).executionState = s.executionState := rfl

theorem mapGet_mapSet_self (m : List (String × NodeExecution)) (k : String)
    (v : NodeExecution) : mapGet (mapSet m k v) k = some v := by
  induction m with
  | nil => simp [mapSet, mapGet]
  | cons p rest ih =>
      obtain ⟨k2, v2⟩ := p
      by_cases hk : k2 = k
      · simp [mapSet, hk, mapGet]
      · simp [mapSet, hk, mapGet, ih]

theorem updateTimeCapsuleState_fields (now : Nat) (s : DebugSessionState) :
    (DebugSession.updateTimeCapsuleState now s).timeCapsule = s.timeCapsule ∧
    (DebugSession.updateTimeCapsuleState now s).timeCapsuleIndex = s.timeCapsuleIndex ∧
    (DebugSession.updateTimeCapsuleState now s).timeCapsuleActive = s.timeCapsuleActive := by
  unfold DebugSession.updateTimeCapsuleState
  cases s.timeCapsule.get? s.timeCapsuleIndex <;> simp

/-!
Concrete fixtures for counterexamples and witnesses.
-/

/-- A session that is active and running. -/
def sRun : DebugSessionState :=
  { createInitialState "python" with isActive := true, executionState := .running }

/-- A session that is active and paused. -/
def sPaused : DebugSessionState :=
  { createInitialState "python" with isActive := true, executionState := .paused }

/-- A concrete Time Capsule step at index 0. -/
def step0 : TimeCapsuleStep :=
  { step := 0, node := "a", type := .node, input := .vnull, output := .vnull,
    state_before := .vnull, state_after := .vstr "after0", duration := none,
    timestamp := "t0", error := none }

/-- A concrete Time Capsule step at index 1. -/
def step1 : TimeCapsuleStep :=
  { step := 1, node := "b", type := .node, input := .vnull, output := .vnull,
    state_before := .vstr "after0", state_after := .vstr "after1", duration := none,
    timestamp := "t1", error := none }

/-- A concrete Time Capsule step at index 2. -/
def step2 : TimeCapsuleStep :=
  { step := 2, node := "__end__", type := .output, input := .vnull, output := .vnull,
    state_before := .vstr "after1", state_after := .vstr "after2", duration := none,
    timestamp := "t2", error := none }

/-- An inactive session holding a three-step Time Capsule history. -/
def sCap : DebugSessionState :=
  { createInitialState "python" with timeCapsule := [step0, step1, step2] }

/-!
Claim theorems.
-/

/-- C1, counterexample: at a concrete running session, a local `pause()`
changes the displayed `executionState` at the time of the call (to `paused`,
before any remote event arrives), refuting the claim that it does not
change; likewise `resume()` and `step()` from a paused session. -/
theorem pause_changes_state_at_call_counterexample :
    (DebugSession.pause 5 sRun).1.executionState ≠ sRun.executionState ∧
    (DebugSession.pause 5 sRun).2 = [Cmd.pause] ∧
    (DebugSession.resume 5 sPaused).1.executionState ≠ sPaused.executionState ∧
    (DebugSession.step 5 sPaused).1.executionState ≠ sPaused.executionState := by
  decide

/-- C1, amended: a local `pause()` in `running` (resp. `resume()`/`step()`
in `paused`) relays the matching command to the transport and immediately
sets the displayed `executionState` to `paused` (resp. `running` /
`stepping`) at the time of the call; the matching remote `paused`/`resumed`
event also sets that state when it arrives. -/
theorem pause_resume_step_transition (s : DebugSessionState) (now : Nat) :
    (s.executionState = .running →
       (DebugSession.pause now s).2 = [Cmd.pause] ∧
       (DebugSession.pause now s).1.executionState = .paused) ∧
    (s.executionState = .paused →
       (DebugSession.resume now s).2 = [Cmd.resume] ∧
       (DebugSession.resume now s).1.executionState = .running) ∧
    (s.executionState = .paused →
       (DebugSession.step now s).2 = [Cmd.step] ∧
       (DebugSession.step now s).1.executionState = .stepping) ∧
    (DebugSession.handleMessage (.paused none) now s).executionState = .paused ∧
    (DebugSession.handleMessage .resumed now s).executionState = .running := by
  refine ⟨fun h => ?_, fun h => ?_, fun h => ?_, ?_, ?_⟩ <;>
    simp [DebugSession.pause, DebugSession.resume, DebugSession.step,
          DebugSession.handleMessage, *]

/-- C1 witness: the amended theorem at the concrete running session. -/
theorem pause_resume_step_transition_witness :
    (DebugSession.pause 5 sRun).2 = [Cmd.pause] ∧
    (DebugSession.pause 5 sRun).1.executionState = .paused :=
  (pause_resume_step_transition sRun 5).1 (by decide)

/-- C2, counterexample: at a concrete active session, after `stop()` the
`executionLog` field is not at its initial (empty) value — `stop()` appends
a final info entry after the reset — refuting the claim that all fields
other than the three Time Capsule fields are reset to their initial
values. -/
theorem stop_log_not_initial_counterexample :
    (DebugSession.stop 7 "python" false sRun).1.executionLog ≠
      (createInitialState "python").executionLog := by
  decide

/-- C2, amended: on an active session, `stop()` leaves `timeCapsule`,
`timeCapsuleIndex` and `timeCapsuleActive` exactly equal to their values
before the call and resets every other field to its initial value, except
that the fresh `executionLog` then receives the single info entry
recording that the session stopped. -/
theorem stop_preserves_capsule (s : DebugSessionState) (now : Nat)
    (d : String) (c : Bool) (h : s.isActive = true) :
    (DebugSession.stop now d c s).1 =
      { createInitialState d with
          timeCapsule := s.timeCapsule,
          timeCapsuleIndex := s.timeCapsuleIndex,
          timeCapsuleActive := s.timeCapsuleActive,
          executionLog := [{ timestamp := now, type := .info, nodeId := none,
                             message := "Debug session stopped", data := none }] } := by
  simp [DebugSession.stop, h, createInitialState, addLogEntry]

theorem handleNodeEnd_capsule_fields (d : NodeExecutionData) (now : Nat)
    (s : DebugSessionState) :
    (DebugSession.handleNodeEnd d now s).timeCapsule = s.timeCapsule ∧
    (DebugSession.handleNodeEnd d now s).timeCapsuleIndex = s.timeCapsuleIndex ∧
    (DebugSession.handleNodeEnd d now s).timeCapsuleActive = s.timeCapsuleActive := by
  unfold DebugSession.handleNodeEnd
  cases mapGet s.nodeExecutions d.nodeId <;> dsimp only <;>
    refine ⟨?_, ?_, ?_⟩ <;> (repeat' split) <;> rfl

theorem capsuleInv_mk (t : DebugSessionState)
    (h1 : t.timeCapsule ≠ [] → t.timeCapsuleIndex < t.timeCapsule.length)
    (h2 : t.timeCapsule = [] → t.timeCapsuleActive = false) : capsuleInv t :=
  ⟨h1, h2⟩

theorem capsuleInv_of_fields (s t : DebugSessionState)
    (hc : t.timeCapsule = s.timeCapsule)
    (hi : t.timeCapsuleIndex = s.timeCapsuleIndex)
    (ha : t.timeCapsuleActive = s.timeCapsuleActive)
    (h : capsuleInv s) : capsuleInv t := by
  unfold capsuleInv at h ⊢
  rw [hc, hi, ha]
  exact h

theorem capsuleInv_idx (s : DebugSessionState) (h : capsuleInv s) :
    s.timeCapsule ≠ [] → s.timeCapsuleIndex < s.timeCapsule.length := by
  unfold capsuleInv at h
  exact h.1

theorem capsuleInv_applyOp (o : Op) (s : DebugSessionState) (h : capsuleInv s) :
    capsuleInv (applyOp o s) := by
  cases o with
  | start now port =>
      simp only [applyOp, DebugSession.start]
      split
      · exact h
      · exact capsuleInv_of_fields s _ rfl rfl rfl h
  | startFail port =>
      simp only [applyOp, DebugSession.startFail]
      split
      · exact h
      · exact capsuleInv_of_fields s _ rfl rfl rfl h
  | stop now d c =>
      simp only [applyOp, DebugSession.stop]
      split
      · exact h
      · exact capsuleInv_of_fields s _ rfl rfl rfl h
  | pause now =>
      simp only [applyOp, DebugSession.pause]
      split
      · exact capsuleInv_of_fields s _ rfl rfl rfl h
      · exact h
  | resume now =>
      simp only [applyOp, DebugSession.resume]
      split
      · exact capsuleInv_of_fields s _ rfl rfl rfl h
      · exact h
  | step now =>
      simp only [applyOp, DebugSession.step]
      split
      · exact capsuleInv_of_fields s _ rfl rfl rfl h
      · exact h
  | toggleBreakpoint nodeId now =>
      simp only [applyOp, DebugSession.toggleBreakpoint]
      split
      · exact capsuleInv_of_fields s _ rfl rfl rfl h
      · exact capsuleInv_of_fields s _ rfl rfl rfl h
  | setPythonPath p => exact capsuleInv_of_fields s _ rfl rfl rfl h
  | activateTimeCapsule now =>
      simp only [applyOp, DebugSession.activateTimeCapsule]
      split_ifs with hlen
      · exact h
      · refine capsuleInv_mk _ (fun _ => ?_) (fun hc => ?_)
        · show 0 < s.timeCapsule.length
          exact Nat.pos_of_ne_zero hlen
        · have hc2 : s.timeCapsule = [] := hc
          simp [hc2] at hlen
  | deactivateTimeCapsule now =>
      refine capsuleInv_mk _ (fun hc => ?_) (fun _ => rfl)
      exact (capsuleInv_of_fields s _ rfl rfl rfl h).1 hc
  | timeCapsuleNext now =>
      simp only [applyOp, DebugSession.timeCapsuleNext]
      split_ifs with hg hlt
      · exact h
      · obtain ⟨f1, f2, f3⟩ := updateTimeCapsuleState_fields now
          { s with timeCapsuleIndex := s.timeCapsuleIndex + 1 }
        refine capsuleInv_mk _ (fun _ => ?_) (fun hc => ?_)
        · rw [f1, f2]
          show s.timeCapsuleIndex + 1 < s.timeCapsule.length
          omega
        · rw [f1] at hc
          have hc2 : s.timeCapsule = [] := hc
          push_neg at hg
          simp [hc2] at hg
      · exact h
  | timeCapsulePrevious now =>
      simp only [applyOp, DebugSession.timeCapsulePrevious]
      split_ifs with hg hpos
      · exact h
      · obtain ⟨f1, f2, f3⟩ := updateTimeCapsuleState_fields now
          { s with timeCapsuleIndex := s.timeCapsuleIndex - 1 }
        push_neg at hg
        refine capsuleInv_mk _ (fun hc => ?_) (fun hc => ?_)
        · rw [f1] at hc
          have hne : s.timeCapsule ≠ [] := hc
          have hlt := capsuleInv_idx s h hne
          rw [f1, f2]
          show s.timeCapsuleIndex - 1 < s.timeCapsule.length
          omega
        · rw [f1] at hc
          have hc2 : s.timeCapsule = [] := hc
          simp [hc2] at hg
      · exact h
  | handleConnected now => exact capsuleInv_of_fields s _ rfl rfl rfl h
  | handleDisconnected now =>
      simp only [applyOp, DebugSession.handleDisconnected]
      split
      · exact capsuleInv_of_fields s _ rfl rfl rfl h
      · exact h
  | handleMessage m now =>
      cases m with
      | connected => exact capsuleInv_of_fields s _ rfl rfl rfl h
      | graph_start => exact capsuleInv_of_fields s _ rfl rfl rfl h
      | graph_end out err tc =>
          simp only [applyOp, DebugSession.handleMessage]
          cases tc with
          | none =>
              dsimp only
              split
              · exact capsuleInv_of_fields s _ rfl rfl rfl h
              · exact capsuleInv_of_fields s _ rfl rfl rfl h
          | some steps =>
              dsimp only
              split <;>
                exact capsuleInv_mk _
                  (fun hc => by simpa using List.length_pos.mpr hc) (fun _ => rfl)
      | node_start d => exact capsuleInv_of_fields s _ rfl rfl rfl h
      | node_end d =>
          obtain ⟨f1, f2, f3⟩ := handleNodeEnd_capsule_fields d now s
          exact capsuleInv_of_fields s _ f1 f2 f3 h
      | state_update st => exact capsuleInv_of_fields s _ rfl rfl rfl h
      | input d => exact capsuleInv_of_fields s _ rfl rfl rfl h
      | output d => exact capsuleInv_of_fields s _ rfl rfl rfl h
      | paused node => exact capsuleInv_of_fields s _ rfl rfl rfl h
      | resumed => exact capsuleInv_of_fields s _ rfl rfl rfl h
      | breakpoint_hit node => exact capsuleInv_of_fields s _ rfl rfl rfl h
      | error e => exact capsuleInv_of_fields s _ rfl rfl rfl h
      | stopped => exact capsuleInv_of_fields s _ rfl rfl rfl h
      | stepEcho => exact h
      | request_input => exact h

/-- C3: every session state reachable from the initial state through any
sequence of controller operations and inbound events satisfies the Time
Capsule invariant — `timeCapsuleIndex` lies in `[0, timeCapsule.length - 1]`
whenever `timeCapsule` is non-empty, and `timeCapsuleActive` is `false`
whenever `timeCapsule` is empty. -/
theorem capsule_invariant_reachable (s : DebugSessionState) (h : Reachable s) :
    capsuleInv s := by
  induction h with
  | init p => exact ⟨fun hc => absurd rfl hc, fun _ => rfl⟩
  | step o s hs ih => exact capsuleInv_applyOp o s ih

/-- C3 witness: the invariant at the concrete reachable state obtained by a
`graph_end` event that installs a one-step history. -/
theorem capsule_invariant_reachable_witness :
    capsuleInv (applyOp (.handleMessage (.graph_end none none (some [step0])) 3)
      (createInitialState "python")) :=
  capsule_invariant_reachable _
    (Reachable.step _ _ (Reachable.init "python"))

/-- C4, counterexample: at a concrete session with a non-empty Time Capsule,
`activateTimeCapsule()` sets the active flag and index 0 but does not
recompute the current-node / current-state projection from step 0 — both
stay at their prior values — refuting the claimed immediate recompute. -/
theorem activate_no_recompute_counterexample :
    (DebugSession.activateTimeCapsule 5 sCap).timeCapsuleActive = true ∧
    (DebugSession.activateTimeCapsule 5 sCap).timeCapsuleIndex = 0 ∧
    (DebugSession.activateTimeCapsule 5 sCap).currentNode ≠
      some (DebugSession.normalizeNode step0.node) ∧
    (DebugSession.activateTimeCapsule 5 sCap).currentState ≠
      some step0.state_after := by
  decide

/-- C4, amended: with a non-empty `timeCapsule`, `activateTimeCapsule()`
sets `timeCapsuleActive = true` and `timeCapsuleIndex = 0`, and does not
recompute the current-node and current-state projection — `currentNode` and
`currentState` are left unchanged; with an empty `timeCapsule` it is a
warning-only no-op. -/
theorem activate_sets_flags_only (s : DebugSessionState) (now : Nat) :
    (s.timeCapsule ≠ [] →
       (DebugSession.activateTimeCapsule now s).timeCapsuleActive = true ∧
       (DebugSession.activateTimeCapsule now s).timeCapsuleIndex = 0 ∧
       (DebugSession.activateTimeCapsule now s).currentNode = s.currentNode ∧
       (DebugSession.activateTimeCapsule now s).currentState = s.currentState) ∧
    (s.timeCapsule = [] → DebugSession.activateTimeCapsule now s = s) := by
  refine ⟨fun hne => ?_, fun he => ?_⟩
  · unfold DebugSession.activateTimeCapsule
    rw [if_neg (by simp [hne])]
    simp
  · unfold DebugSession.activateTimeCapsule
    rw [if_pos (by simp [he])]

/-- C4 witness: the amended theorem at the concrete three-step session. -/
theorem activate_sets_flags_only_witness :
    (DebugSession.activateTimeCapsule 5 sCap).timeCapsuleActive = true ∧
    (DebugSession.activateTimeCapsule 5 sCap).timeCapsuleIndex = 0 ∧
    (DebugSession.activateTimeCapsule 5 sCap).currentNode = sCap.currentNode ∧
    (DebugSession.activateTimeCapsule 5 sCap).currentState = sCap.currentState :=
  (activate_sets_flags_only sCap 5).1 (by decide)

theorem handleNodeStart_get (s : DebugSessionState) (d : NodeExecutionData)
    (t1 : Nat) :
    mapGet (DebugSession.handleNodeStart d t1 s).nodeExecutions d.nodeId = some
      { nodeId := d.nodeId, nodeName := d.nodeName, status := .running,
        input := d.input, output := none, stateBefore := d.stateBefore,
        stateAfter := none, startTime := some t1, endTime := none,
        duration := none, error := none } := by
  unfold DebugSession.handleNodeStart
  simp [mapGet_mapSet_self]

theorem handleNodeEnd_found (s : DebugSessionState) (d : NodeExecutionData)
    (now : Nat) (r : NodeExecution)
    (hr : mapGet s.nodeExecutions d.nodeId = some r) :
    mapGet (DebugSession.handleNodeEnd d now s).nodeExecutions d.nodeId = some
      { r with status := if errTruthy d.error then .error else .completed,
               output := d.output, stateAfter := d.stateAfter,
               endTime := some now,
               duration := some (match d.duration with
                 | some v =>
                     if v = 0 then (now : Int) - (jsOrNat r.startTime now : Int)
                     else (v : Int)
                 | none => (now : Int) - (jsOrNat r.startTime now : Int)),
               error := d.error } := by
  unfold DebugSession.handleNodeEnd
  rw [hr]
  dsimp only
  (repeat' split) <;> simp [mapGet_mapSet_self]

theorem durNonneg (t1 t2 : Nat) (h : t1 ≤ t2) (dop : Option Nat) :
    0 ≤ (match dop with
         | some v => if v = 0 then (t2 : Int) - (jsOrNat (some t1) t2 : Int)
                     else (v : Int)
         | none => (t2 : Int) - (jsOrNat (some t1) t2 : Int)) := by
  unfold jsOrNat
  cases dop <;> dsimp only <;> split_ifs <;> omega

/-- C5: starting from any session state, a `node_start(id)` event at time
`t1` followed by the matching `node_end(id)` event at time `t2 ≥ t1` yields
a record for `id` whose status is `completed` with a non-negative duration
when the payload carries no (non-empty) error, and whose status is `error`
whenever the payload carries a non-empty error, regardless of the payload's
`output`. -/
theorem node_start_end_record (s : DebugSessionState) (d : NodeExecutionData)
    (t1 t2 : Nat) (h12 : t1 ≤ t2) :
    (errTruthy d.error = false →
       ∃ r, mapGet (DebugSession.handleNodeEnd d t2
               (DebugSession.handleNodeStart d t1 s)).nodeExecutions d.nodeId =
             some r ∧
         r.status = .completed ∧ ∃ dur, r.duration = some dur ∧ 0 ≤ dur) ∧
    (errTruthy d.error = true →
       ∃ r, mapGet (DebugSession.handleNodeEnd d t2
               (DebugSession.handleNodeStart d t1 s)).nodeExecutions d.nodeId =
             some r ∧
         r.status = .error) := by
  have hget := handleNodeEnd_found (DebugSession.handleNodeStart d t1 s) d t2 _
    (handleNodeStart_get s d t1)
  constructor
  · intro herr
    refine ⟨_, hget, ?_, ?_⟩
    · simp [herr]
    · exact ⟨_, rfl, durNonneg t1 t2 h12 d.duration⟩
  · intro herr
    refine ⟨_, hget, ?_⟩
    simp [herr]

/-- C5 witness: the theorem at a concrete error-free lifecycle. -/
theorem node_start_end_record_witness :
    ∃ r, mapGet (DebugSession.handleNodeEnd
            { nodeId := "n", nodeName := "N", input := none, output := none,
              stateBefore := none, stateAfter := none, duration := none,
              error := none } 8
            (DebugSession.handleNodeStart
              { nodeId := "n", nodeName := "N", input := none, output := none,
                stateBefore := none, stateAfter := none, duration := none,
                error := none } 3
              (createInitialState "python"))).nodeExecutions "n" = some r ∧
      r.status = .completed ∧ ∃ dur, r.duration = some dur ∧ 0 ≤ dur :=
  (node_start_end_record (createInitialState "python")
    { nodeId := "n", nodeName := "N", input := none, output := none,
      stateBefore := none, stateAfter := none, duration := none,
      error := none } 3 8 (by decide)).1 (by decide)

/-- A `node_end` payload for a node id with no record. -/
def dEndX : NodeExecutionData :=
  { nodeId := "x", nodeName := "X", input := none, output := none,
    stateBefore := none, stateAfter := none, duration := none, error := none }

/-- C6, counterexample: at a concrete session with no record for the event's
node id, `handleNodeEnd` appends no log entry at all — the execution log is
unchanged — refuting the claim that the event is logged. -/
theorem node_end_absent_not_logged_counterexample :
    mapGet sRun.nodeExecutions dEndX.nodeId = none ∧
    (DebugSession.handleNodeEnd dEndX 9 sRun).executionLog = sRun.executionLog := by
  decide

/-- C6, amended: a `node_end` event whose node id has no record is ignored
without logging: no record is created or modified and the execution log is
unchanged; additionally, for every `node_end` event, `currentNode` is
cleared exactly when it currently equals the event's node id. -/
theorem node_end_absent_ignored (s : DebugSessionState) (d : NodeExecutionData)
    (now : Nat) :
    (mapGet s.nodeExecutions d.nodeId = none →
       (DebugSession.handleNodeEnd d now s).nodeExecutions = s.nodeExecutions ∧
       (DebugSession.handleNodeEnd d now s).executionLog = s.executionLog) ∧
    (DebugSession.handleNodeEnd d now s).currentNode =
      (if s.currentNode = some d.nodeId then none else s.currentNode) := by
  constructor
  · intro hab
    unfold DebugSession.handleNodeEnd
    rw [hab]
    dsimp only
    split <;> simp
  · unfold DebugSession.handleNodeEnd
    cases hm : mapGet s.nodeExecutions d.nodeId <;> dsimp only <;>
      by_cases hcn : s.currentNode = some d.nodeId <;> simp [hcn]

/-- C6 witness: the amended theorem at the concrete record-free session. -/
theorem node_end_absent_ignored_witness :
    (DebugSession.handleNodeEnd dEndX 9 sRun).nodeExecutions = sRun.nodeExecutions ∧
    (DebugSession.handleNodeEnd dEndX 9 sRun).executionLog = sRun.executionLog :=
  (node_end_absent_ignored sRun dEndX 9).1 (by decide)

/-- C7: `timeCapsuleNext()` and `timeCapsulePrevious()` are no-ops unless
the capsule is active and non-empty; when applicable they move the index by
one, clamped to `[0, length - 1]` with no wraparound; in particular, on the
concrete three-step history: `activate()` gives index 0, two `next()` calls
give index 2 with `isAtLastStep() = true`, a further `next()` leaves index
2, two `previous()` calls from there give index 0, and a further
`previous()` leaves index 0. -/
theorem capsule_nav_clamped (s : DebugSessionState) (now : Nat) :
    (¬(s.timeCapsuleActive = true ∧ s.timeCapsule ≠ []) →
       DebugSession.timeCapsuleNext now s = s ∧
       DebugSession.timeCapsulePrevious now s = s) ∧
    (s.timeCapsuleActive = true → s.timeCapsule ≠ [] →
       s.timeCapsuleIndex < s.timeCapsule.length →
       (DebugSession.timeCapsuleNext now s).timeCapsuleIndex =
         min (s.timeCapsuleIndex + 1) (s.timeCapsule.length - 1) ∧
       (DebugSession.timeCapsulePrevious now s).timeCapsuleIndex =
         s.timeCapsuleIndex - 1) ∧
    ((DebugSession.activateTimeCapsule 1 sCap).timeCapsuleIndex = 0 ∧
     (DebugSession.timeCapsuleNext 3 (DebugSession.timeCapsuleNext 2
        (DebugSession.activateTimeCapsule 1 sCap))).timeCapsuleIndex = 2 ∧
     DebugSession.isAtLastStep (DebugSession.timeCapsuleNext 3
        (DebugSession.timeCapsuleNext 2
          (DebugSession.activateTimeCapsule 1 sCap))) = true ∧
     (DebugSession.timeCapsuleNext 4 (DebugSession.timeCapsuleNext 3
        (DebugSession.timeCapsuleNext 2
          (DebugSession.activateTimeCapsule 1 sCap)))).timeCapsuleIndex = 2 ∧
     (DebugSession.timeCapsulePrevious 6 (DebugSession.timeCapsulePrevious 5
        (DebugSession.timeCapsuleNext 4 (DebugSession.timeCapsuleNext 3
          (DebugSession.timeCapsuleNext 2
            (DebugSession.activateTimeCapsule 1 sCap)))))).timeCapsuleIndex = 0 ∧
     (DebugSession.timeCapsulePrevious 7 (DebugSession.timeCapsulePrevious 6
        (DebugSession.timeCapsulePrevious 5
          (DebugSession.timeCapsuleNext 4 (DebugSession.timeCapsuleNext 3
            (DebugSession.timeCapsuleNext 2
              (DebugSession.activateTimeCapsule 1 sCap))))))).timeCapsuleIndex
       = 0) := by
  refine ⟨fun hg => ?_, fun ha hne hidx => ?_, by decide⟩
  · have hcond : ¬ s.timeCapsuleActive ∨ s.timeCapsule.length = 0 := by
      by_cases hA : s.timeCapsuleActive = true
      · right
        by_contra hL
        exact hg ⟨hA, fun he => hL (by simp [he])⟩
      · left
        simpa using hA
    constructor
    · unfold DebugSession.timeCapsuleNext
      rw [if_pos hcond]
    · unfold DebugSession.timeCapsulePrevious
      rw [if_pos hcond]
  · have hcond : ¬ (¬ s.timeCapsuleActive ∨ s.timeCapsule.length = 0) := by
      push_neg
      exact ⟨by simp [ha], by simp [hne]⟩
    constructor
    · unfold DebugSession.timeCapsuleNext
      rw [if_neg hcond]
      split_ifs with hlt
      · obtain ⟨f1, f2, f3⟩ := updateTimeCapsuleState_fields now
          { s with timeCapsuleIndex := s.timeCapsuleIndex + 1 }
        rw [f2]
        show s.timeCapsuleIndex + 1 = _
        omega
      · omega
    · unfold DebugSession.timeCapsulePrevious
      rw [if_neg hcond]
      split_ifs with hpos
      · obtain ⟨f1, f2, f3⟩ := updateTimeCapsuleState_fields now
          { s with timeCapsuleIndex := s.timeCapsuleIndex - 1 }
        rw [f2]
      · omega

/-- C7 witness: the no-op clause of the theorem at the concrete inactive
initial state. -/
theorem capsule_nav_clamped_witness :
    DebugSession.timeCapsuleNext 0 (createInitialState "python") =
      createInitialState "python" ∧
    DebugSession.timeCapsulePrevious 0 (createInitialState "python") =
      createInitialState "python" :=
  (capsule_nav_clamped (createInitialState "python") 0).1 (by decide)

/-- C8: `toggleBreakpoint(nodeId)` returns `true` then `false` when the id
is initially absent (and `false` then `true` when present), relays the
matching `set_breakpoint`/`remove_breakpoint` command, and two successive
calls leave the breakpoint set with exactly its original membership —
independently of the transport, whose relay result the controller never
consults. -/
theorem toggle_breakpoint_involution (s : DebugSessionState) (nodeId : String)
    (t1 t2 : Nat) (hnd : s.breakpoints.Nodup) :
    (nodeId ∉ s.breakpoints →
       (DebugSession.toggleBreakpoint nodeId t1 s).1 = true ∧
       (DebugSession.toggleBreakpoint nodeId t2
         (DebugSession.toggleBreakpoint nodeId t1 s).2.1).1 = false ∧
       (DebugSession.toggleBreakpoint nodeId t1 s).2.2 =
         [Cmd.set_breakpoint nodeId]) ∧
    (nodeId ∈ s.breakpoints →
       (DebugSession.toggleBreakpoint nodeId t1 s).1 = false ∧
       (DebugSession.toggleBreakpoint nodeId t2
         (DebugSession.toggleBreakpoint nodeId t1 s).2.1).1 = true ∧
       (DebugSession.toggleBreakpoint nodeId t1 s).2.2 =
         [Cmd.remove_breakpoint nodeId]) ∧
    (∀ x, x ∈ (DebugSession.toggleBreakpoint nodeId t2
        (DebugSession.toggleBreakpoint nodeId t1 s).2.1).2.1.breakpoints ↔
      x ∈ s.breakpoints) := by
  by_cases hm : nodeId ∈ s.breakpoints
  · have hne : nodeId ∉ s.breakpoints.erase nodeId := by
      intro hmem
      exact absurd (List.Nodup.mem_erase_iff hnd |>.mp hmem).1 (by simp)
    refine ⟨fun hc => absurd hm hc, fun _ => ?_, fun x => ?_⟩
    · refine ⟨?_, ?_, ?_⟩ <;>
        simp [DebugSession.toggleBreakpoint, hm, setDel, hne]
    · simp only [DebugSession.toggleBreakpoint, hm, if_pos, setDel]
      rw [if_neg (by simpa using hne)]
      simp only [addLogEntry_breakpoints]
      show x ∈ setAdd (s.breakpoints.erase nodeId) nodeId ↔ x ∈ s.breakpoints
      unfold setAdd
      rw [if_neg hne]
      by_cases hx : x = nodeId
      · subst hx
        simp [hm]
      · simp only [List.mem_append, List.mem_singleton, hx, or_false]
        rw [List.Nodup.mem_erase_iff hnd]
        simp [hx]
  · have hmem2 : nodeId ∈ setAdd s.breakpoints nodeId := by
      unfold setAdd
      rw [if_neg hm]
      simp
    refine ⟨fun _ => ?_, fun hc => absurd hc hm, fun x => ?_⟩
    · refine ⟨?_, ?_, ?_⟩ <;>
        simp [DebugSession.toggleBreakpoint, hm, setAdd, hmem2]
    · simp only [DebugSession.toggleBreakpoint]
      rw [if_neg hm]
      simp only [addLogEntry_breakpoints]
      rw [if_pos (by simpa using hmem2)]
      simp only [addLogEntry_breakpoints]
      show x ∈ setDel (setAdd s.breakpoints nodeId) nodeId ↔ x ∈ s.breakpoints
      unfold setAdd setDel
      rw [if_neg hm, List.erase_append_right _ hm]
      simp

/-- C8 witness: the theorem's absent-then-present round trip at the concrete
initial session and node id `tool`. -/
theorem toggle_breakpoint_involution_witness :
    (DebugSession.toggleBreakpoint "tool" 1 (createInitialState "python")).1 = true ∧
    (DebugSession.toggleBreakpoint "tool" 2
      (DebugSession.toggleBreakpoint "tool" 1
        (createInitialState "python")).2.1).1 = false ∧
    (DebugSession.toggleBreakpoint "tool" 1 (createInitialState "python")).2.2 =
      [Cmd.set_breakpoint "tool"] :=
  (toggle_breakpoint_involution (createInitialState "python") "tool" 1 2
    (by decide)).1 (by decide)

/-- An empty heap: every reference maps to an empty collection. -/
def emptyHeap : Heap :=
  { maps := fun _ => [], logs := fun _ => [], sets := fun _ => [],
    capsules := fun _ => [] }

/-- A fresh session object whose collections live at references 0–3. -/
def sObj : SessionObj :=
  { isActive := false, executionState := .stopped, currentNode := none,
    nodeExecutionsRef := 0, executionLogRef := 1, currentState := none,
    initialInput := none, finalOutput := none, breakpointsRef := 2,
    startTime := none, port := 0, pythonPath := "python", timeCapsuleRef := 3,
    timeCapsuleIndex := 0, timeCapsuleActive := false }

/-- A concrete node-execution record a caller might insert. -/
def recX : NodeExecution :=
  { nodeId := "x", nodeName := "X", status := .running, input := none,
    output := none, stateBefore := none, stateAfter := none, startTime := none,
    endTime := none, duration := none, error := none }

/-- C9, counterexample: `getState()` copies the session one level deep, so
the returned value holds the same `Map` reference as the controller; a
caller inserting through the returned value's `nodeExecutions` changes the
controller's own node-execution map — refuting the claim that no caller
mutation of the returned value can change internal state. -/
theorem getState_shared_map_counterexample :
    readNodeExecutions
        (heapMapSet emptyHeap (DebugSession.getState sObj).nodeExecutionsRef
          "x" recX) sObj ≠
      readNodeExecutions emptyHeap sObj := by
  decide

/-- C9, amended: `getState()` returns a shallow copy — the top-level fields,
including the references to the `nodeExecutions` map, `breakpoints` set,
`executionLog` array, and `timeCapsule` array, are copied, so those
collections are shared with the controller and caller mutations through them
change the controller's internal state; by contrast `getExecutionLog()` and
`getNodeExecutions()` return fresh arrays of the current contents (and a map
insertion does not affect the log the controller reads). -/
theorem getState_shallow_copy (s : SessionObj) (h : Heap) (k : String)
    (v : NodeExecution) (x : String) :
    (DebugSession.getState s).nodeExecutionsRef = s.nodeExecutionsRef ∧
    (DebugSession.getState s).breakpointsRef = s.breakpointsRef ∧
    (DebugSession.getState s).executionLogRef = s.executionLogRef ∧
    (DebugSession.getState s).timeCapsuleRef = s.timeCapsuleRef ∧
    readNodeExecutions (heapMapSet h (DebugSession.getState s).nodeExecutionsRef k v) s =
      mapSet (readNodeExecutions h s) k v ∧
    readBreakpoints (heapSetAdd h (DebugSession.getState s).breakpointsRef x) s =
      setAdd (readBreakpoints h s) x ∧
    DebugSession.getExecutionLog (heapMapSet h (DebugSession.getState s).nodeExecutionsRef k v) s =
      DebugSession.getExecutionLog h s ∧
    DebugSession.getNodeExecutions h s = (readNodeExecutions h s).map Prod.snd := by
  refine ⟨rfl, rfl, rfl, rfl, ?_, ?_, rfl, rfl⟩
  · unfold readNodeExecutions heapMapSet DebugSession.getState
    simp
  · unfold readBreakpoints heapSetAdd DebugSession.getState
    simp

/-- C10: after a second peer `b` replaces the tracked peer `a`, the close
event of the superseded socket `a` unconditionally nulls the tracked client
and invokes the disconnected callback, so `connected` becomes `false` and
`send` fails, even though peer `b`'s socket is still open. -/
theorem stale_close_clears_client (st : ServerState) (a b : Nat) (c : Cmd)
    (hab : a ≠ b) :
    (DebugServer.handleCloseEvt a (DebugServer.handleConnection b
        (DebugServer.handleConnection a st))).client = none ∧
    (DebugServer.handleCloseEvt a (DebugServer.handleConnection b
        (DebugServer.handleConnection a st))).disconnectedCount =
      (DebugServer.handleConnection b
        (DebugServer.handleConnection a st)).disconnectedCount + 1 ∧
    DebugServer.connected (DebugServer.handleCloseEvt a
      (DebugServer.handleConnection b (DebugServer.handleConnection a st))) =
      false ∧
    (DebugServer.send c (DebugServer.handleCloseEvt a
      (DebugServer.handleConnection b
        (DebugServer.handleConnection a st)))).1 = false ∧
    (DebugServer.handleCloseEvt a (DebugServer.handleConnection b
        (DebugServer.handleConnection a st))).readyState b = wsOPEN := by
  refine ⟨rfl, rfl, rfl, ?_, ?_⟩
  · simp [DebugServer.send, DebugServer.connected, DebugServer.handleCloseEvt]
  · unfold DebugServer.handleCloseEvt DebugServer.handleConnection
    simp [Ne.symm hab]

/-- C10 witness: the theorem at concrete peers 0 and 1. -/
theorem stale_close_clears_client_witness :
    (DebugServer.handleCloseEvt 0 (DebugServer.handleConnection 1
        (DebugServer.handleConnection 0
          { client := none, readyState := fun _ => 0,
            disconnectedCount := 0 }))).client = none ∧
    (DebugServer.handleCloseEvt 0 (DebugServer.handleConnection 1
        (DebugServer.handleConnection 0
          { client := none, readyState := fun _ => 0,
            disconnectedCount := 0 }))).disconnectedCount =
      (DebugServer.handleConnection 1 (DebugServer.handleConnection 0
          { client := none, readyState := fun _ => 0,
            disconnectedCount := 0 })).disconnectedCount + 1 ∧
    DebugServer.connected (DebugServer.handleCloseEvt 0
      (DebugServer.handleConnection 1 (DebugServer.handleConnection 0
          { client := none, readyState := fun _ => 0,
            disconnectedCount := 0 }))) = false ∧
    (DebugServer.send Cmd.pause (DebugServer.handleCloseEvt 0
      (DebugServer.handleConnection 1 (DebugServer.handleConnection 0
          { client := none, readyState := fun _ => 0,
            disconnectedCount := 0 })))).1 = false ∧
    (DebugServer.handleCloseEvt 0 (DebugServer.handleConnection 1
        (DebugServer.handleConnection 0
          { client := none, readyState := fun _ => 0,
            disconnectedCount := 0 }))).readyState 1 = wsOPEN :=
  stale_close_clears_client
    { client := none, readyState := fun _ => 0, disconnectedCount := 0 }
    0 1 Cmd.pause (by decide)

/-- C2 witness: the amended theorem at the concrete active session. -/
theorem stop_preserves_capsule_witness :
    (DebugSession.stop 7 "python" false sRun).1 =
      { createInitialState "python" with
          timeCapsule := sRun.timeCapsule,
          timeCapsuleIndex := sRun.timeCapsuleIndex,
          timeCapsuleActive := sRun.timeCapsuleActive,
          executionLog := [{ timestamp := 7, type := .info, nodeId := none,
                             message := "Debug session stopped", data := none }] } :=
  stop_preserves_capsule sRun 7 "python" false (by decide)

